import Mathlib

/-!
Verification of the Octocat-Simulator core (scripts/decay.py, scripts/interact.py,
scripts/utils.py) against its natural-language specification.

Python strings are modelled as `List Char`; `pyStrip`, `pySplit` and `pyUpper`
mirror `str.strip()` (ASCII whitespace), `str.split(delim)` and `str.upper()`
(ASCII letters) — the inputs relevant here are ASCII.  Machine integers do not
overflow in this program, so stats are plain `Int`.  The persisted record is the
fixed-shape structure `PetState`; dict mutation becomes functional record update.
-/

namespace Octocat

/-- Coerces a Lean string literal to the `List Char` model of Python strings. -/
def pys (s : String) : List Char := s.data

/-- Whitespace test used by `str.strip()`, restricted to the ASCII whitespace
characters that can occur in the inputs of this program. -/
def pyIsSpace (c : Char) : Bool :=
  c = ' ' || c = '\t' || c = '\n' || c = '\r'

/-- Python `str.strip()`: drop leading and trailing whitespace. -/
def pyStrip (l : List Char) : List Char :=
  ((l.dropWhile pyIsSpace).reverse.dropWhile pyIsSpace).reverse

/-- Python `str.split(delim)` for a one-character delimiter: keeps empty
segments, and the empty string splits to `[""]`. -/
def pySplit (delim : Char) : List Char → List (List Char)
  | [] => [[]]
  | c :: cs =>
    if c = delim then [] :: pySplit delim cs
    else
      match pySplit delim cs with
      | [] => [[c]]
      | p :: ps => (c :: p) :: ps

/-- Python `str.upper()` on a single ASCII character. -/
def pyCharUpper (c : Char) : Char :=
  if 'a' ≤ c ∧ c ≤ 'z' then Char.ofNat (c.toNat - 32) else c

/-- Python `str.upper()`. -/
def pyUpper (l : List Char) : List Char := l.map pyCharUpper

/-- The persisted pet record (data/state.json), with the fields the scripts
read and write.  Stats are integers; display fields are opaque strings. -/
structure PetState where
  name : String
  health : Int
  hunger : Int
  mood : Int
  level : Int
  owner_count : Int
  status_pic : String
  status_emoji : String
  last_updated : String
deriving DecidableEq, Repr

/-- Emoji chain transcribed from scripts/decay.py lines 41-46. -/
def classify_emoji (health hunger mood : Int) : String :=
  if health < 30 ∨ hunger > 80 ∨ mood < 20 then "😰"
  else if health < 60 ∨ hunger > 60 ∨ mood < 40 then "😐"
  else "🐙"

/-- Picture chain transcribed from scripts/interact.py lines 88-93. -/
def classify_pic (health hunger mood : Int) : String :=
  if health < 30 ∨ hunger > 80 ∨ mood < 20 then "images/bad.png"
  else if health < 60 ∨ hunger > 60 ∨ mood < 40 then "images/general.png"
  else "images/good.png"

/-- Transcription of `apply_decay` (scripts/decay.py lines 17-48): hunger rises
by 20 capped at 100, mood falls by 10 floored at 0, health falls by 5 floored
at 0 when the updated hunger exceeds 80 or the updated mood is below 20, and
`status_emoji` is recomputed from the updated stats. -/
def apply_decay (state : PetState) : PetState :=
  let hunger := min 100 (state.hunger + 20)
  let mood := max 0 (state.mood - 10)
  let health :=
    if hunger > 80 ∨ mood < 20 then max 0 (state.health - 5) else state.health
  { state with
      hunger := hunger, mood := mood, health := health,
      status_emoji := classify_emoji health hunger mood }

/-- The command whitelist of scripts/interact.py line 42. -/
def valid_instructions : List (List Char) :=
  [pys "FEED", pys "PLAY", pys "PET", pys "CARE", pys "HEAL"]

/-- Transcription of `parse_instruction` (scripts/interact.py lines 20-46):
strip the title, split on the bar, require exactly two parts, strip and
upper-case the first as the command, strip the second as the pet name, reject
unless the pet name upper-cases to OCTAVIA and the command is whitelisted. -/
def parse_instruction (issue_title : List Char) : Option (List Char) :=
  match pySplit '|' (pyStrip issue_title) with
  | [p0, p1] =>
    let instruction := pyUpper (pyStrip p0)
    let pet_name := pyStrip p1
    if pyUpper pet_name ≠ pys "OCTAVIA" then none
    else if instruction ∉ valid_instructions then none
    else some instruction
  | _ => none

/-- Transcription of `apply_instruction` (scripts/interact.py lines 48-95):
upper-case the command, apply the matching clamped stat deltas (an unmatched
command falls through with no stat change), then recompute `status_pic` from
the current stats. -/
def apply_instruction (state : PetState) (instruction : List Char) : PetState :=
  let instr := pyUpper instruction
  let state :=
    if instr = pys "FEED" then
      { state with
          hunger := max 0 (state.hunger - 30),
          mood := min 100 (state.mood + 10),
          health := min 100 (state.health + 5) }
    else if instr = pys "PLAY" then
      { state with
          mood := min 100 (state.mood + 30),
          hunger := min 100 (state.hunger + 5) }
    else if instr = pys "PET" then
      { state with mood := min 100 (state.mood + 20) }
    else if instr = pys "CARE" then
      { state with
          hunger := max 0 (state.hunger - 20),
          mood := min 100 (state.mood + 15),
          health := min 100 (state.health + 3) }
    else if instr = pys "HEAL" then
      { state with
          health := min 100 (state.health + 20),
          mood := min 100 (state.mood + 10) }
    else state
  { state with status_pic := classify_pic state.health state.hunger state.mood }

/-- Outcome kind of one run of the interact script. -/
inductive OutputKind where
  | statusReport
  | helpMessage
deriving DecidableEq, Repr

/-- Observable result of one run of `main` in scripts/interact.py: process
exit code, which document was produced, the persisted record afterwards, and
which engines ran. -/
structure MainResult where
  exitCode : Nat
  output : OutputKind
  store : PetState
  loaded : Bool
  decayApplied : Bool
  instructionApplied : Option (List Char)
deriving DecidableEq, Repr

/-- Transcription of the control flow of `main` (scripts/interact.py lines
139-234): an empty title is replaced by the test command FEED|Octavia; if
parsing rejects, the help message is written and the process exits 1 before
any load, decay or save; otherwise the record is loaded, decay applied, the
instruction applied, and the result saved, exiting 0. -/
def runMain (issue_title : List Char) (stored : PetState) : MainResult :=
  let title := if issue_title = pys "" then pys "FEED|Octavia" else issue_title
  match parse_instruction title with
  | none =>
    { exitCode := 1, output := OutputKind.helpMessage, store := stored,
      loaded := false, decayApplied := false, instructionApplied := none }
  | some instr =>
    let s := stored
    let s := apply_decay s
    let s := apply_instruction s instr
    { exitCode := 0, output := OutputKind.statusReport, store := s,
      loaded := true, decayApplied := true, instructionApplied := some instr }

/-- Filesystem view relevant to `save_state` (scripts/utils.py): the content of
the canonical state file and of the sibling temporary file, `none` = absent. -/
structure FSState where
  canonical : Option (List Char)
  temp : Option (List Char)
deriving DecidableEq, Repr

/-- Failure oracle for one run of `save_state`: the run succeeds, or the write
of the temporary file raises (having written some prefix, or nothing), or the
rename raises. -/
inductive SaveRun where
  | ok
  | failWrite (written : Option (List Char))
  | failRename
deriving DecidableEq, Repr

/-- Transcription of `save_state` (scripts/utils.py lines 36-65) at the
filesystem level, with `content` the serialized record: write `content` to the
temporary file, then atomically rename it onto the canonical file; on an
exception the handler unlinks the temporary file if present and re-raises
(the `Bool` is `false` when the error propagates). -/
def save_state (fs : FSState) (content : List Char) : SaveRun → Bool × FSState
  | SaveRun.ok =>
    let fs1 : FSState := { fs with temp := some content }
    (true, { canonical := fs1.temp, temp := none })
  | SaveRun.failWrite written =>
    let fs1 : FSState := { fs with temp := written }
    (false, { fs1 with temp := none })
  | SaveRun.failRename =>
    let fs1 : FSState := { fs with temp := some content }
    (false, { fs1 with temp := none })

/-- Three-tier display classification as the spec words it (§4.4). -/
inductive Tier where
  | poor
  | fair
  | good
deriving DecidableEq, Repr

/-- Tier selection as the spec words it: Poor when health < 30 or hunger > 80
or mood < 20; else Fair when health < 60 or hunger > 60 or mood < 40; else
Good. -/
def specTier (health hunger mood : Int) : Tier :=
  if health < 30 ∨ hunger > 80 ∨ mood < 20 then Tier.poor
  else if health < 60 ∨ hunger > 60 ∨ mood < 40 then Tier.fair
  else Tier.good

/-- Picture rendering of a tier. -/
def picOfTier : Tier → String
  | Tier.poor => "images/bad.png"
  | Tier.fair => "images/general.png"
  | Tier.good => "images/good.png"

/-- Emoji rendering of a tier. -/
def emojiOfTier : Tier → String
  | Tier.poor => "😰"
  | Tier.fair => "😐"
  | Tier.good => "🐙"

/-- Acceptance condition of claim C5 exactly as the claim words it: splitting
the title on the bar yields exactly two non-empty segments, the first segment
upper-cased is whitelisted, and the second upper-cases to OCTAVIA. -/
def claimAccepts (title : List Char) : Prop :=
  ∃ a b, pySplit '|' title = [a, b] ∧ a ≠ [] ∧ b ≠ [] ∧
    pyUpper a ∈ valid_instructions ∧ pyUpper b = pys "OCTAVIA"

/-- Acceptance condition amended with the whitespace stripping the code
performs: the stripped title splits into exactly two segments that are
non-empty after stripping, the stripped first segment upper-cases into the
whitelist, and the stripped second segment upper-cases to OCTAVIA. -/
def acceptsSpec (title : List Char) : Prop :=
  ∃ a b, pySplit '|' (pyStrip title) = [a, b] ∧ pyStrip a ≠ [] ∧ pyStrip b ≠ [] ∧
    pyUpper (pyStrip a) ∈ valid_instructions ∧ pyUpper (pyStrip b) = pys "OCTAVIA"

/-- Stats are integers within [0,100] (spec §3 invariant). -/
def statsInRange (s : PetState) : Prop :=
  0 ≤ s.health ∧ s.health ≤ 100 ∧ 0 ≤ s.hunger ∧ s.hunger ≤ 100 ∧
    0 ≤ s.mood ∧ s.mood ≤ 100

instance instDecidableStatsInRange (s : PetState) : Decidable (statsInRange s) := by
  unfold statsInRange
  infer_instance

/-- Concrete record used by witnesses: the defaults of `init_state` in
scripts/utils.py, with a fixed timestamp and emoji. -/
def stateA : PetState :=
  { name := "Octavia", health := 100, hunger := 50, mood := 80, level := 1,
    owner_count := 0, status_pic := "images/good.png", status_emoji := "🐙",
    last_updated := "2026-01-01T00:00:00+08:00" }

/-- Like `stateA` but with a stale bad-tier picture, to exercise the display
fields. -/
def stateB : PetState := { stateA with status_pic := "images/bad.png" }

lemma classify_pic_spec (health hunger mood : Int) :
    classify_pic health hunger mood = picOfTier (specTier health hunger mood) := by
  unfold classify_pic specTier picOfTier
  by_cases h1 : health < 30 ∨ hunger > 80 ∨ mood < 20
  · simp [h1]
  · by_cases h2 : health < 60 ∨ hunger > 60 ∨ mood < 40
    · simp [h1, h2]
    · simp [h1, h2]

lemma classify_emoji_spec (health hunger mood : Int) :
    classify_emoji health hunger mood = emojiOfTier (specTier health hunger mood) := by
  unfold classify_emoji specTier emojiOfTier
  by_cases h1 : health < 30 ∨ hunger > 80 ∨ mood < 20
  · simp [h1]
  · by_cases h2 : health < 60 ∨ hunger > 60 ∨ mood < 40
    · simp [h1, h2]
    · simp [h1, h2]

/-- Claim C1 — counterexample.  After a single `apply_decay` on a record whose
stored picture is the bad-tier one, the resulting stats classify as Fair, but
`status_pic` is left stale at the bad-tier value: `apply_decay` recomputes only
`status_emoji`, so the claim that both derived fields equal the shared
classification after every core mutation is false. -/
theorem c1_statusPic_stale_after_decay :
    specTier (apply_decay stateB).health (apply_decay stateB).hunger
        (apply_decay stateB).mood = Tier.fair
    ∧ picOfTier Tier.fair = "images/general.png"
    ∧ (apply_decay stateB).status_pic = "images/bad.png"
    ∧ (apply_decay stateB).status_pic
        ≠ picOfTier (specTier (apply_decay stateB).health (apply_decay stateB).hunger
            (apply_decay stateB).mood) := by
  refine ⟨by decide, by decide, by decide, by decide⟩

/-- Claim C1 — amended.  Each core mutation recomputes exactly its own derived
field from the resulting (health, hunger, mood) via the shared three-tier
classification: `apply_decay` recomputes `status_emoji` and passes
`status_pic` through unchanged, while `apply_instruction` recomputes
`status_pic` and passes `status_emoji` through unchanged. -/
theorem c1_derived_fields (s : PetState) (instruction : List Char) :
    (apply_decay s).status_emoji
        = emojiOfTier (specTier (apply_decay s).health (apply_decay s).hunger
            (apply_decay s).mood)
    ∧ (apply_decay s).status_pic = s.status_pic
    ∧ (apply_instruction s instruction).status_pic
        = picOfTier (specTier (apply_instruction s instruction).health
            (apply_instruction s instruction).hunger
            (apply_instruction s instruction).mood)
    ∧ (apply_instruction s instruction).status_emoji = s.status_emoji := by
  refine ⟨?_, rfl, ?_, ?_⟩
  · rw [← classify_emoji_spec]
    rfl
  · rw [← classify_pic_spec]
    rfl
  · unfold apply_instruction
    dsimp only
    repeat' split
    all_goals rfl

/-- Claim C3 — confirmed.  `apply_decay` raises hunger by 20 capped at 100,
lowers mood by 10 floored at 0, and lowers health by 5 floored at 0 exactly
when the updated hunger exceeds 80 or the updated mood is below 20, leaving
health unchanged otherwise. -/
theorem c3_decay_steps (s : PetState) :
    (apply_decay s).hunger = min 100 (s.hunger + 20)
    ∧ (apply_decay s).mood = max 0 (s.mood - 10)
    ∧ (apply_decay s).health =
        (if min 100 (s.hunger + 20) > 80 ∨ max 0 (s.mood - 10) < 20 then
          max 0 (s.health - 5)
         else s.health) :=
  ⟨rfl, rfl, rfl⟩

/-- Claim C4 — confirmed.  `apply_instruction` applies exactly the claimed
clamped deltas for each of FEED, PLAY, PET, CARE and HEAL, leaving the other
stats unchanged. -/
theorem c4_instruction_deltas (s : PetState) :
    ((apply_instruction s (pys "FEED")).hunger = max 0 (s.hunger - 30)
      ∧ (apply_instruction s (pys "FEED")).mood = min 100 (s.mood + 10)
      ∧ (apply_instruction s (pys "FEED")).health = min 100 (s.health + 5))
    ∧ ((apply_instruction s (pys "PLAY")).hunger = min 100 (s.hunger + 5)
      ∧ (apply_instruction s (pys "PLAY")).mood = min 100 (s.mood + 30)
      ∧ (apply_instruction s (pys "PLAY")).health = s.health)
    ∧ ((apply_instruction s (pys "PET")).hunger = s.hunger
      ∧ (apply_instruction s (pys "PET")).mood = min 100 (s.mood + 20)
      ∧ (apply_instruction s (pys "PET")).health = s.health)
    ∧ ((apply_instruction s (pys "CARE")).hunger = max 0 (s.hunger - 20)
      ∧ (apply_instruction s (pys "CARE")).mood = min 100 (s.mood + 15)
      ∧ (apply_instruction s (pys "CARE")).health = min 100 (s.health + 3))
    ∧ ((apply_instruction s (pys "HEAL")).hunger = s.hunger
      ∧ (apply_instruction s (pys "HEAL")).mood = min 100 (s.mood + 10)
      ∧ (apply_instruction s (pys "HEAL")).health = min 100 (s.health + 20)) :=
  ⟨⟨rfl, rfl, rfl⟩, ⟨rfl, rfl, rfl⟩, ⟨rfl, rfl, rfl⟩, ⟨rfl, rfl, rfl⟩,
    ⟨rfl, rfl, rfl⟩⟩

lemma apply_decay_hunger (s : PetState) :
    (apply_decay s).hunger = min 100 (s.hunger + 20) := rfl

lemma apply_decay_mood (s : PetState) :
    (apply_decay s).mood = max 0 (s.mood - 10) := rfl

lemma apply_decay_health (s : PetState) :
    (apply_decay s).health =
      (if min 100 (s.hunger + 20) > 80 ∨ max 0 (s.mood - 10) < 20 then
        max 0 (s.health - 5)
       else s.health) := rfl

lemma apply_instruction_feed (s : PetState) :
    apply_instruction s (pys "FEED") =
      { s with
          hunger := max 0 (s.hunger - 30),
          mood := min 100 (s.mood + 10),
          health := min 100 (s.health + 5),
          status_pic := classify_pic (min 100 (s.health + 5)) (max 0 (s.hunger - 30)) (min 100 (s.mood + 10)) } := rfl

lemma apply_instruction_play (s : PetState) :
    apply_instruction s (pys "PLAY") =
      { s with
          mood := min 100 (s.mood + 30),
          hunger := min 100 (s.hunger + 5),
          status_pic := classify_pic s.health (min 100 (s.hunger + 5)) (min 100 (s.mood + 30)) } := rfl

lemma apply_instruction_pet (s : PetState) :
    apply_instruction s (pys "PET") =
      { s with
          mood := min 100 (s.mood + 20),
          status_pic := classify_pic s.health s.hunger (min 100 (s.mood + 20)) } := rfl

lemma apply_instruction_care (s : PetState) :
    apply_instruction s (pys "CARE") =
      { s with
          hunger := max 0 (s.hunger - 20),
          mood := min 100 (s.mood + 15),
          health := min 100 (s.health + 3),
          status_pic := classify_pic (min 100 (s.health + 3)) (max 0 (s.hunger - 20)) (min 100 (s.mood + 15)) } := rfl

lemma apply_instruction_heal (s : PetState) :
    apply_instruction s (pys "HEAL") =
      { s with
          health := min 100 (s.health + 20),
          mood := min 100 (s.mood + 10),
          status_pic := classify_pic (min 100 (s.health + 20)) s.hunger (min 100 (s.mood + 10)) } := rfl

/-- Claim C2 — confirmed.  From any record whose health, hunger and mood lie
in [0,100], both `apply_decay` and `apply_instruction` (for each of the five
commands) return a record whose health, hunger and mood again lie in
[0,100]. -/
theorem c2_stats_in_range (s : PetState) (h : statsInRange s) :
    statsInRange (apply_decay s)
    ∧ ∀ instr ∈ valid_instructions, statsInRange (apply_instruction s instr) := by
  obtain ⟨h1, h2, h3, h4, h5, h6⟩ := h
  constructor
  · unfold statsInRange
    rw [apply_decay_hunger, apply_decay_mood, apply_decay_health]
    split <;> omega
  · intro instr hi
    simp only [valid_instructions, List.mem_cons, List.not_mem_nil, or_false] at hi
    rcases hi with rfl | rfl | rfl | rfl | rfl
    · rw [apply_instruction_feed]
      unfold statsInRange
      dsimp only
      omega
    · rw [apply_instruction_play]
      unfold statsInRange
      dsimp only
      omega
    · rw [apply_instruction_pet]
      unfold statsInRange
      dsimp only
      omega
    · rw [apply_instruction_care]
      unfold statsInRange
      dsimp only
      omega
    · rw [apply_instruction_heal]
      unfold statsInRange
      dsimp only
      omega

/-- Claim C2 — witness at the default record. -/
theorem c2_stats_in_range_witness :
    statsInRange stateA
    ∧ (statsInRange (apply_decay stateA)
        ∧ ∀ instr ∈ valid_instructions, statsInRange (apply_instruction stateA instr)) :=
  ⟨by decide, c2_stats_in_range stateA (by decide)⟩

lemma decay_iter_hunger (s : PetState) (h1 : s.hunger ≤ 100) :
    ∀ n : Nat, (apply_decay^[n] s).hunger = min 100 (s.hunger + 20 * (n : Int)) := by
  intro n
  induction n with
  | zero =>
    simp only [Function.iterate_zero_apply, Nat.cast_zero]
    omega
  | succ k ih =>
    rw [Function.iterate_succ_apply', apply_decay_hunger, ih]
    push_cast
    omega

lemma decay_iter_mood (s : PetState) (h0 : 0 ≤ s.mood) :
    ∀ n : Nat, (apply_decay^[n] s).mood = max 0 (s.mood - 10 * (n : Int)) := by
  intro n
  induction n with
  | zero =>
    simp only [Function.iterate_zero_apply, Nat.cast_zero]
    omega
  | succ k ih =>
    rw [Function.iterate_succ_apply', apply_decay_mood, ih]
    push_cast
    omega

/-- Claim C6 — counterexample.  Starting from the default record (mood 80),
five applications of `apply_decay` leave mood at 30, and no earlier iterate
reaches mood 0 either: the claimed bound of at most 5 calls to drive mood to 0
is false (mood falls by only 10 per call). -/
theorem c6_five_calls_insufficient :
    stateA.mood = 80
    ∧ (apply_decay^[1] stateA).mood = 70
    ∧ (apply_decay^[2] stateA).mood = 60
    ∧ (apply_decay^[3] stateA).mood = 50
    ∧ (apply_decay^[4] stateA).mood = 40
    ∧ (apply_decay^[5] stateA).mood = 30 := by
  refine ⟨by decide, by decide, by decide, by decide, by decide, by decide⟩

/-- Claim C6 — amended.  For any starting record with hunger and mood in
[0,100], ten iterations of `apply_decay` (not five: mood falls by 10 per call
from up to 100) reach hunger = 100 and mood = 0; any record saturated at
hunger = 100 and mood = 0 keeps those two values under a further call, which
sets health to max(0, health - 5). -/
theorem c6_decay_saturation (s : PetState) (hh : s.hunger ≤ 100) (hm : 0 ≤ s.mood)
    (hh0 : 0 ≤ s.hunger) (hm1 : s.mood ≤ 100) :
    ((apply_decay^[10] s).hunger = 100 ∧ (apply_decay^[10] s).mood = 0)
    ∧ ∀ t : PetState, t.hunger = 100 → t.mood = 0 →
        (apply_decay t).hunger = 100 ∧ (apply_decay t).mood = 0
          ∧ (apply_decay t).health = max 0 (t.health - 5) := by
  refine ⟨⟨?_, ?_⟩, ?_⟩
  · rw [decay_iter_hunger s hh 10]
    push_cast
    omega
  · rw [decay_iter_mood s hm 10]
    push_cast
    omega
  · intro t h1 h2
    refine ⟨?_, ?_, ?_⟩
    · rw [apply_decay_hunger, h1]
      omega
    · rw [apply_decay_mood, h2]
      omega
    · rw [apply_decay_health, h1, h2]
      split
      · rfl
      · omega

/-- Claim C6 — witness at the default record. -/
theorem c6_decay_saturation_witness :
    (stateA.hunger ≤ 100 ∧ 0 ≤ stateA.mood ∧ 0 ≤ stateA.hunger ∧ stateA.mood ≤ 100)
    ∧ (((apply_decay^[10] stateA).hunger = 100 ∧ (apply_decay^[10] stateA).mood = 0)
        ∧ ∀ t : PetState, t.hunger = 100 → t.mood = 0 →
            (apply_decay t).hunger = 100 ∧ (apply_decay t).mood = 0
              ∧ (apply_decay t).health = max 0 (t.health - 5)) :=
  ⟨by decide, c6_decay_saturation stateA (by decide) (by decide) (by decide) (by decide)⟩

/-- Claim C7 — counterexample.  On the rejected title "FEED" the flow loads
nothing, applies no decay and saves nothing: the persisted record is returned
untouched, so the claim that decay is applied unconditionally for every
trigger title is false. -/
theorem c7_reject_skips_decay :
    parse_instruction (pys "FEED") = none
    ∧ (runMain (pys "FEED") stateA).loaded = false
    ∧ (runMain (pys "FEED") stateA).decayApplied = false
    ∧ (runMain (pys "FEED") stateA).store = stateA
    ∧ (runMain (pys "FEED") stateA).store ≠ apply_decay stateA := by
  refine ⟨by decide, by decide, by decide, by decide, by decide⟩

/-- Claim C7 — amended.  An empty title is first replaced by the test command
FEED|Octavia.  When the (possibly substituted) title parses to an instruction,
the record is loaded, decay is applied unconditionally before the instruction,
the instruction engine is applied, and the result is saved with exit status 0;
when the parser rejects, the flow short-circuits before any load, so no decay
is applied and nothing is saved. -/
theorem c7_control_flow (title : List Char) (stored : PetState) :
    (∀ i, parse_instruction (if title = pys "" then pys "FEED|Octavia" else title) = some i →
        runMain title stored =
          { exitCode := 0, output := OutputKind.statusReport,
            store := apply_instruction (apply_decay stored) i,
            loaded := true, decayApplied := true, instructionApplied := some i })
    ∧ (parse_instruction (if title = pys "" then pys "FEED|Octavia" else title) = none →
        runMain title stored =
          { exitCode := 1, output := OutputKind.helpMessage, store := stored,
            loaded := false, decayApplied := false, instructionApplied := none }) := by
  constructor
  · intro i hi
    unfold runMain
    dsimp only
    rw [hi]
  · intro hn
    unfold runMain
    dsimp only
    rw [hn]

/-- Claim C7 — witness on the accepted title PET|Octavia. -/
theorem c7_control_flow_witness :
    parse_instruction
        (if pys "PET|Octavia" = pys "" then pys "FEED|Octavia" else pys "PET|Octavia")
      = some (pys "PET")
    ∧ runMain (pys "PET|Octavia") stateA =
        { exitCode := 0, output := OutputKind.statusReport,
          store := apply_instruction (apply_decay stateA) (pys "PET"),
          loaded := true, decayApplied := true, instructionApplied := some (pys "PET") } :=
  ⟨by decide, (c7_control_flow (pys "PET|Octavia") stateA).1 (pys "PET") (by decide)⟩

/-- Claim C8 — counterexample.  The empty trigger title is rejected by the
parser, yet the flow substitutes the test command FEED|Octavia for it and runs
the full load-mutate-save path with exit status 0: on this one title the
persisted record is mutated despite the parse rejection. -/
theorem c8_empty_title_mutates :
    parse_instruction (pys "") = none
    ∧ (runMain (pys "") stateA).store ≠ stateA
    ∧ (runMain (pys "") stateA).exitCode = 0
    ∧ (runMain (pys "") stateA).output = OutputKind.statusReport := by
  refine ⟨by decide, by decide, by decide, by decide⟩

/-- Claim C8 — amended.  Whenever the trigger title is non-empty and the
parser rejects it, the flow performs no load-mutate-save (the persisted record
is untouched), produces the fixed help message instead of a status update, and
exits with failure status 1. -/
theorem c8_reject_no_mutation (title : List Char) (stored : PetState)
    (hne : title ≠ pys "") (hrej : parse_instruction title = none) :
    runMain title stored =
      { exitCode := 1, output := OutputKind.helpMessage, store := stored,
        loaded := false, decayApplied := false, instructionApplied := none } := by
  unfold runMain
  dsimp only
  rw [if_neg hne, hrej]

/-- Claim C8 — witness on the rejected title "FEED". -/
theorem c8_reject_no_mutation_witness :
    (pys "FEED" ≠ pys "" ∧ parse_instruction (pys "FEED") = none)
    ∧ runMain (pys "FEED") stateA =
        { exitCode := 1, output := OutputKind.helpMessage, store := stateA,
          loaded := false, decayApplied := false, instructionApplied := none } :=
  ⟨by decide, c8_reject_no_mutation (pys "FEED") stateA (by decide) (by decide)⟩

/-- Claim C9 — confirmed.  Whatever fails during save (writing the temporary
file or renaming it), the error propagates (the run reports failure), the
temporary artifact is removed, and the canonical file holds exactly its
previous content. -/
theorem c9_save_failure_safe (fs : FSState) (content : List Char) (r : SaveRun)
    (h : r ≠ SaveRun.ok) :
    (save_state fs content r).1 = false
    ∧ (save_state fs content r).2.temp = none
    ∧ (save_state fs content r).2.canonical = fs.canonical := by
  cases r with
  | ok => exact absurd rfl h
  | failWrite written => exact ⟨rfl, rfl, rfl⟩
  | failRename => exact ⟨rfl, rfl, rfl⟩

/-- Claim C9 — witness: a rename failure over an existing canonical file. -/
theorem c9_save_failure_safe_witness :
    SaveRun.failRename ≠ SaveRun.ok
    ∧ ((save_state ⟨some (pys "old"), none⟩ (pys "new") SaveRun.failRename).1 = false
      ∧ (save_state ⟨some (pys "old"), none⟩ (pys "new") SaveRun.failRename).2.temp = none
      ∧ (save_state ⟨some (pys "old"), none⟩ (pys "new") SaveRun.failRename).2.canonical
          = (⟨some (pys "old"), none⟩ : FSState).canonical) :=
  ⟨by decide,
    c9_save_failure_safe ⟨some (pys "old"), none⟩ (pys "new") SaveRun.failRename (by decide)⟩

/-- Claim C10 — confirmed.  For any command string whose upper-casing is not
whitelisted, `apply_instruction` returns normally with every field unchanged
except `status_pic`, which is recomputed from the current health, hunger and
mood. -/
theorem c10_unknown_instruction_frame (s : PetState) (instruction : List Char)
    (h : pyUpper instruction ∉ valid_instructions) :
    apply_instruction s instruction =
      { s with status_pic := classify_pic s.health s.hunger s.mood } := by
  simp only [valid_instructions, List.mem_cons, List.not_mem_nil, or_false,
    not_or] at h
  obtain ⟨h1, h2, h3, h4, h5⟩ := h
  unfold apply_instruction
  dsimp only
  rw [if_neg h1, if_neg h2, if_neg h3, if_neg h4, if_neg h5]

/-- Claim C10 — witness on the unknown command DANCE. -/
theorem c10_unknown_instruction_frame_witness :
    pyUpper (pys "DANCE") ∉ valid_instructions
    ∧ apply_instruction stateA (pys "DANCE") =
        { stateA with status_pic := classify_pic stateA.health stateA.hunger stateA.mood } :=
  ⟨by decide, c10_unknown_instruction_frame stateA (pys "DANCE") (by decide)⟩

lemma valid_upper_ne_nil {l : List Char} (h : pyUpper l ∈ valid_instructions) :
    l ≠ [] := by
  rintro rfl
  exact absurd h (by decide)

lemma octavia_upper_ne_nil {l : List Char} (h : pyUpper l = pys "OCTAVIA") :
    l ≠ [] := by
  rintro rfl
  exact absurd h (by decide)

lemma parse_instruction_eq_two (t a b : List Char)
    (h : pySplit '|' (pyStrip t) = [a, b]) :
    parse_instruction t =
      (if pyUpper (pyStrip b) ≠ pys "OCTAVIA" then none
       else if pyUpper (pyStrip a) ∉ valid_instructions then none
       else some (pyUpper (pyStrip a))) := by
  unfold parse_instruction
  rw [h]

lemma parse_instruction_eq_other (t : List Char)
    (h : ∀ a b, pySplit '|' (pyStrip t) ≠ [a, b]) :
    parse_instruction t = none := by
  unfold parse_instruction
  rcases hsplit : pySplit '|' (pyStrip t) with _ | ⟨a, _ | ⟨b, _ | ⟨c, rest⟩⟩⟩
  · rfl
  · rfl
  · exact absurd hsplit (h a b)
  · rfl

/-- Claim C5 — counterexample.  The title "FEED |Octavia" is accepted by the
parser (the code strips each segment before checking), but the claim's
condition is false on it: splitting yields the first segment "FEED " whose
upper-casing, with its trailing space, is not in the whitelist.  The claimed
biconditional therefore fails. -/
theorem c5_whitespace_counterexample :
    parse_instruction (pys "FEED |Octavia") = some (pys "FEED")
    ∧ ¬ claimAccepts (pys "FEED |Octavia") := by
  constructor
  · decide
  · rintro ⟨a, b, hab, -, -, hmem, -⟩
    have hsplit : pySplit '|' (pys "FEED |Octavia") = [pys "FEED ", pys "Octavia"] := by
      decide
    rw [hsplit] at hab
    injection hab with ha hrest
    injection hrest with hb
    subst ha
    exact absurd hmem (by decide)

/-- Claim C5 — amended.  `parse_instruction` returns an instruction exactly
when, after stripping whitespace from the title, splitting on the bar yields
exactly two segments that are non-empty after stripping, the stripped first
segment upper-cases into {FEED, PLAY, PET, CARE, HEAL}, and the stripped
second segment upper-cases to OCTAVIA; otherwise it rejects with no partial
instruction. -/
theorem c5_parse_characterization (title : List Char) :
    (parse_instruction title).isSome ↔ acceptsSpec title := by
  rcases hsplit : pySplit '|' (pyStrip title) with _ | ⟨a, _ | ⟨b, _ | ⟨c, rest⟩⟩⟩
  · rw [parse_instruction_eq_other title
      (by intro x y hxy; rw [hsplit] at hxy; simp at hxy)]
    unfold acceptsSpec
    rw [hsplit]
    simp
  · rw [parse_instruction_eq_other title
      (by intro x y hxy; rw [hsplit] at hxy; simp at hxy)]
    unfold acceptsSpec
    rw [hsplit]
    simp
  · rw [parse_instruction_eq_two title a b hsplit]
    unfold acceptsSpec
    rw [hsplit]
    constructor
    · intro hs
      by_cases hoct : pyUpper (pyStrip b) = pys "OCTAVIA"
      · rw [if_neg (not_not_intro hoct)] at hs
        by_cases hins : pyUpper (pyStrip a) ∈ valid_instructions
        · exact ⟨a, b, rfl, valid_upper_ne_nil hins, octavia_upper_ne_nil hoct,
            hins, hoct⟩
        · rw [if_pos hins] at hs
          simp at hs
      · rw [if_pos hoct] at hs
        simp at hs
    · rintro ⟨a0, b0, heq, -, -, hins, hoct⟩
      injection heq with h1 hrest
      injection hrest with h2
      subst h1
      subst h2
      rw [if_neg (not_not_intro hoct), if_neg (not_not_intro hins)]
      rfl
  · rw [parse_instruction_eq_other title
      (by intro x y hxy; rw [hsplit] at hxy; simp at hxy)]
    unfold acceptsSpec
    rw [hsplit]
    simp

end Octocat
